import Mathlib

/-!
Shallow embedding of `deeplabcut/generate_training_dataset/labeling_toolbox.py`
(the DeepLabCut labeling toolbox GUI), restricted to the annotation-store and
point-editor logic that the specification's claims are about.

Modelling conventions:
  * The pandas `DataFrame` keyed by relative image name with a three-level
    column header `(scorer, bodypart, axis)` becomes `DF`: an ordered list of
    rows `(frame name, association list bodypart -> (x, y))` together with the
    bodypart column order `cols`.  The `scorer` level is a single constant for
    a whole session and is therefore omitted from the keys.
  * A pandas cell is `Val := Option ℚ`; `none` models the NaN ("unset")
    sentinel.  The claims never do arithmetic on coordinates, only store and
    retrieve them, so `ℚ` is a faithful stand-in for the float values.
  * `dr.coords`, which in the source is the singleton list
    `[[x, y, bodypart, bpindex]]`, becomes the structure `Coords`.
  * GUI chrome (drawing, toolbar, status bar) has no effect on the modelled
    state and is elided; where an operation's only observable effect is a
    user-facing dialog it is recorded in `messages` or in an event trace.
  * `wx.Frame.Close(True)` only requests that the window close; the Python
    function that called it keeps executing.  `browseDirTail` records this as
    a `closeFired` event in its trace, followed by whatever the source code
    still executes.
-/

/-- A pandas cell: `none` models NaN ("unset"). -/
abbrev Val := Option ℚ

/-- One annotation row: association list from bodypart name to its (x, y)
pair, in column order.  (The constant scorer level is omitted.) -/
abbrev Row := List (String × (Val × Val))

/-- The in-memory annotation store `self.dataFrame`: bodypart column order
plus the ordered rows keyed by relative image name. -/
structure DF where
  cols : List String
  rows : List (String × Row)
deriving Repr, DecidableEq

/-- First-match association-list lookup, the semantics of indexing a pandas
column level by label. -/
def lookupRow (bp : String) : Row → Option (Val × Val)
  | [] => none
  | e :: r => if e.1 = bp then some e.2 else lookupRow bp r

/-- Write the (x, y) pair of one bodypart in one row, in place.  The source
performs the `"x"` and the `"y"` assignment separately; writing the pair at
once is the same row update. -/
def rowSetXY (r : Row) (bp : String) (x y : Val) : Row :=
  r.map (fun e => if e.1 = bp then (e.1, (x, y)) else e)

/-- `self.dataFrame.loc[frame][scorer, bp, "x"/"y"] = x/y`: label-based row
update (every row whose key matches, as `.loc` does). -/
def dfSetXY (df : DF) (frame bp : String) (x y : Val) : DF :=
  { df with rows := df.rows.map (fun r => if r.1 = frame then (r.1, rowSetXY r.2 bp x y) else r) }

/-- `self.dataFrame[scorer][bp]["x"/"y"].values[i]`: positional row access
into the store's current row order. -/
def dfGetPos (df : DF) (i : Nat) (bp : String) : Val × Val :=
  match df.rows.get? i with
  | some r => (lookupRow bp r.2).getD (none, none)
  | none => (none, none)

/-- Label-based read of one bodypart of one frame row. -/
def dfGetByKey (df : DF) (frame bp : String) : Option (Val × Val) :=
  match df.rows.find? (fun r => r.1 == frame) with
  | some r => lookupRow bp r.2
  | none => none

/-- Every row's columns agree with the store's column list (pandas keeps all
rows of one DataFrame on the same columns; our list-of-rows encoding states
it explicitly). -/
def wellFormed (df : DF) : Prop :=
  ∀ r ∈ df.rows, r.2.map Prod.fst = df.cols

instance (df : DF) : Decidable (wellFormed df) := by
  unfold wellFormed; infer_instance

/-- The content of one `DraggablePoint.coords` entry: the source stores the
singleton list `[[x, y, bodypart, bpindex]]`. -/
structure Coords where
  x : Val
  y : Val
  bp : String
  bpindex : Nat
deriving Repr, DecidableEq

def emptyStr : String := ""

/-- The session state of `MainFrame` that the modelled operations touch. -/
structure GuiState where
  dataFrame : DF
  iter : Nat
  index : List String
  relativeimagenames : List String
  bodyparts : List String
  updatedCoords : List Coords
  buttonCounter : List Nat
  drs : List Coords
  rdbSelection : Nat
  nextEnabled : Bool
  prevEnabled : Bool
  file : Nat
  currentDirectory : String
  files : List String
  messages : List String
deriving Repr, DecidableEq

/-- `self.relativeimagenames[self.iter]`. -/
def currentRelName (s : GuiState) : String :=
  s.relativeimagenames.getD s.iter emptyStr

def conflictSuffix : String := " is already annotated. \n Select another body part to annotate."

/-- The `wx.MessageBox` text shown when placing on an already-set bodypart. -/
def conflictMsg (bp : String) : String := bp ++ conflictSuffix

/-- `MainFrame.onClick` (source lines 517-563).  `button = 3` is a right
click at data coordinates `(x1, y1)`.  If the selected bodypart index is in
`buttonCounter` it is already annotated: only an error dialog is shown.
Otherwise a new draggable point is created, the selection index, point and
coordinates are appended, and the radio-box selection advances by one if the
selected bodypart was not the last.  (The `mpl_disconnect` calls and canvas
drawing have no modelled effect.) -/
def onClick (s : GuiState) (button : Nat) (x1 y1 : Val) : GuiState :=
  if button = 3 then
    if s.rdbSelection ∈ s.buttonCounter then
      { s with messages := s.messages ++ [conflictMsg (s.bodyparts.getD s.rdbSelection emptyStr)] }
    else
      let c : Coords := ⟨x1, y1, s.bodyparts.getD s.rdbSelection emptyStr, s.rdbSelection⟩
      let s1 := { s with buttonCounter := s.buttonCounter ++ [s.rdbSelection],
                         drs := s.drs ++ [c],
                         updatedCoords := s.updatedCoords ++ [c] }
      if s1.rdbSelection < s1.bodyparts.length - 1 then
        { s1 with rdbSelection := s1.rdbSelection + 1 }
      else s1
  else s

/-- `MainFrame.getLabels` (source lines 897-912).  NOTE (faithful to the
source): the body reads `...values[self.iter]`, so the `imgIndex` argument
is never used — the function always returns the labels of the currently
displayed row, whatever index it is asked about. -/
def getLabels (s : GuiState) (imgIndex : Nat) : List Coords :=
  s.bodyparts.enum.map (fun p =>
    let v := dfGetPos s.dataFrame s.iter p.2
    ⟨v.1, v.2, p.2, p.1⟩)

/-- `MainFrame.plot` (source lines 914-946): recreates one draggable point
per bodypart from the store's current row, resets `drs`/`updatedCoords`, and
appends to `buttonCounter` the index of every bodypart whose stored x value
is not NaN. -/
def plot (s : GuiState) : GuiState :=
  let labels := getLabels s s.iter
  { s with drs := labels,
           updatedCoords := labels,
           buttonCounter := s.buttonCounter ++
             s.bodyparts.enum.filterMap (fun p =>
               if (dfGetPos s.dataFrame s.iter p.2).1.isSome then some p.1 else none) }

/-- `MainFrame.saveEachImage` (source lines 948-958): for every entry of
`updatedCoords` (each the singleton `[[x, y, bodypart, bpindex]]`), writes
its x and y into the store row `relativeimagenames[iter]` under its bodypart
column. -/
def saveEachImage (s : GuiState) : GuiState :=
  { s with dataFrame :=
      s.updatedCoords.foldl (fun df c => dfSetXY df (currentRelName s) c.bp c.x c.y) s.dataFrame }

/-- `MainFrame.ResetEachImage` (source lines 960-970): same traversal as
`saveEachImage` but writes `None` (NaN) into both axes. -/
def ResetEachImage (s : GuiState) : GuiState :=
  { s with dataFrame :=
      s.updatedCoords.foldl (fun df c => dfSetXY df (currentRelName s) c.bp none none) s.dataFrame }

/-- `MainFrame.nextImage` (source lines 784-852), non-verify branch (the
labeling session constructed by `show` has `verify=False`; the verify branch
reloads a stored file from disk and is outside the claims).  On the last
image it disables the Next button and returns at once; otherwise it clears
the button counter, commits the current frame, increments `iter` and
redraws/replots the new frame. -/
def nextImage (s : GuiState) : GuiState :=
  if s.index.length - s.iter = 1 then
    { s with nextEnabled := false }
  else
    let s1 := { s with prevEnabled := true, rdbSelection := 0, file := 1, buttonCounter := [] }
    let s2 := saveEachImage s1
    let s3 := { s2 with iter := s2.iter + 1 }
    if s3.index.length ≥ s3.iter then
      plot { s3 with updatedCoords := getLabels s3 s3.iter }
    else s3

def pathSep : String := "/"

/-- `os.path.join(a, b)` for a relative second component. -/
def joinPath (a b : String) : String := a ++ pathSep ++ b

/-- `MainFrame.deleteImage` (source lines 972-986).  Computes the path to
remove as `os.path.join(self.currentDirectory, self.relativeimagenames[self.iter])`
— `currentDirectory` is `os.getcwd()` captured at start-up, NOT the folder
the frames were loaded from.  Then resets the current row and the pending
coordinates, commits, navigates to the next image, and removes the computed
path (`os.remove` on a missing path raises; modelled as `List.erase`, a
no-op when the path is not on disk). -/
def deleteImage (s : GuiState) : GuiState :=
  let image_path := joinPath s.currentDirectory (s.relativeimagenames.getD s.iter emptyStr)
  let s1 := ResetEachImage s
  let s2 := { s1 with updatedCoords := s1.updatedCoords.map (fun c => { c with x := none, y := none }) }
  let s3 := saveEachImage s2
  let s4 := nextImage s3
  { s4 with files := s4.files.erase image_path }

/-- `df.all(...)` of one row: true when every cell of the row is NaN. -/
def allUnsetRow (r : Row) : Bool :=
  r.all (fun e => e.2.1.isNone && e.2.2.isNone)

/-- `self.dataFrame.dropna(how="all")`: drop the rows whose cells are all
NaN. -/
def dropAllNaN (df : DF) : DF :=
  { df with rows := df.rows.filter (fun r => !(allUnsetRow r.2)) }

/-- Row comparison used by `sort_index`: ascending by frame-name key. -/
def rowLe (a b : String × Row) : Prop := a.1 ≤ b.1

instance : DecidableRel rowLe := fun a b => inferInstanceAs (Decidable (a.1 ≤ b.1))

instance : IsTotal (String × Row) rowLe := ⟨fun a b => le_total a.1 b.1⟩

instance : IsTrans (String × Row) rowLe := ⟨fun _ _ _ h1 h2 => le_trans h1 h2⟩

/-- `self.dataFrame.sort_index(inplace=True)`: stable ascending sort of the
rows by frame name (pandas' sort is stable; insertion sort is stable). -/
def sortRows (df : DF) : DF :=
  { df with rows := List.insertionSort rowLe df.rows }

/-- `self.dataFrame.reindex(self.bodyparts, axis=1, level="bodyparts")`:
level-based reindex keeps, in target order, only the target labels that are
present in the stored bodyparts level — it cannot fabricate columns for a
label absent from the level (those labels are silently dropped), and a
stored label absent from the target list is dropped too. -/
def reindexCols (bodyparts : List String) (df : DF) : DF :=
  { cols := bodyparts.filter (fun bp => decide (bp ∈ df.cols)),
    rows := df.rows.map (fun r =>
      (r.1, (bodyparts.filter (fun bp => decide (bp ∈ df.cols))).map
        (fun bp => (bp, (lookupRow bp r.2).getD (none, none))))) }

/-- The table `saveDataSet` writes to both files: commit the current frame,
drop all-NaN rows, sort by frame name, reindex the bodypart columns to the
configured order (source lines 1034-1048). -/
def saveDataSetTable (s : GuiState) : DF :=
  let s1 := saveEachImage s
  reindexCols s1.bodyparts (sortRows (dropAllNaN s1.dataFrame))

/-- `sys.platform` values distinguished by `saveDataSet`. -/
inductive OsName where
  | linux
  | win32
  | darwin
deriving DecidableEq, Repr

def osErrorMsg : String := "OSError during rename"

def darwinLogMsg : String := " Unexpected os.rename behaviour, try win32 approach"

/-- One `os.rename(path, path.backup)` guarded by `os.path.exists(path)`;
`renameFails` is the oracle for whether the file system raises. -/
def renameBackup (exists0 renameFails : Bool) : Except String Unit :=
  if exists0 then (if renameFails then .error osErrorMsg else .ok ()) else .ok ()

/-- The backup phase of `MainFrame.saveDataSet` (source lines 993-1031).
Faithful to the source:
  * `linux`/`linux2`: the two renames are NOT wrapped in try/except — a
    file-system error propagates out of `saveDataSet`;
  * `win32`: also no try/except, and the rename runs only inside
    `if os.path.exists(backup_path)`, i.e. only when a previous backup
    already exists;
  * `darwin`: the renames are inside `try/except`, a failure is printed and
    execution continues.
Returns the printed log lines on the paths that proceed. -/
def backupPhase (p : OsName) (csvExists hdfExists csvBakExists hdfBakExists renameFails : Bool) :
    Except String (List String) :=
  match p with
  | .linux => do
      let _ ← renameBackup csvExists renameFails
      let _ ← renameBackup hdfExists renameFails
      .ok []
  | .win32 => do
      let _ ← if csvExists && csvBakExists then renameBackup csvExists renameFails
              else (.ok () : Except String Unit)
      let _ ← if hdfExists && hdfBakExists then renameBackup hdfExists renameFails
              else (.ok () : Except String Unit)
      .ok []
  | .darwin =>
      match (do
        let _ ← renameBackup csvExists renameFails
        let _ ← renameBackup hdfExists renameFails
        (.ok () : Except String Unit)) with
      | .ok _ => .ok []
      | .error _ => .ok [darwinLogMsg]

/-- What `saveDataSet` produces when it runs to completion. -/
structure SaveResult where
  log : List String
  state : GuiState
  csvFile : DF
  hdfFile : DF
deriving Repr, DecidableEq

/-- `MainFrame.saveDataSet` (source lines 988-1048): backup phase, then
commit of the current frame, then the dropna/sort/reindex transform, then
`to_csv` and `to_hdf` of the SAME `self.dataFrame`.  An uncaught exception
in the backup phase aborts the whole save (nothing is written). -/
def saveDataSet (p : OsName) (csvExists hdfExists csvBakExists hdfBakExists renameFails : Bool)
    (s : GuiState) : Except String SaveResult :=
  match backupPhase p csvExists hdfExists csvBakExists hdfBakExists renameFails with
  | .error e => .error e
  | .ok log =>
      let t := saveDataSetTable s
      .ok ⟨log, { saveEachImage s with dataFrame := t }, t, t⟩

/-- `self.new_bodyparts` (source lines 707-710): the configured bodyparts
absent from the store's (deduplicated) column labels. -/
def newBodypartsOf (df : DF) (bodyparts : List String) : List String :=
  bodyparts.filter (fun bp => decide (bp ∉ df.cols.dedup))

/-- The column-adding loop of `browseDir` (source lines 748-756): one new
all-NaN (x, y) column pair per new bodypart, appended for every existing
row. -/
def addColumnsForNew (df : DF) (newBps : List String) : DF :=
  { cols := df.cols ++ newBps,
    rows := df.rows.map (fun r =>
      (r.1, r.2 ++ newBps.map (fun bp => (bp, ((none : Val), (none : Val)))))) }

/-- The store reconciliation of `browseDir` against the configured bodypart
list (source lines 706-756): when new bodyparts exist, add an all-NaN
column pair for each; otherwise the store is left as it is. -/
def reconcileNewBodyparts (df : DF) (bodyparts : List String) : DF :=
  let newBps := newBodypartsOf df bodyparts
  if newBps = [] then df else addColumnsForNew df newBps

/-- Observable events of the tail of `browseDir`, in execution order. -/
inductive BrowseEvent where
  | closeFired : BrowseEvent
  | columnAdded : String → BrowseEvent
  | plotted : BrowseEvent
  | handleCreated : String → BrowseEvent
deriving DecidableEq, Repr

/-- The tail of `MainFrame.browseDir` after the store is loaded/merged
(source lines 699-781): the duplicate-bodypart check
(`len(bodyparts) != len(set(bodyparts))` prints and calls `self.Close(True)`
— which only requests a window close, execution continues), then new-label
extraction, then (in the new-label branch) the dialog, the all-NaN column
additions, the redraw and the point-handle creation in `plot`.  `dialogNo`
is the user's answer to the new-label dialog (`wx.ID_NO` replaces
`self.bodyparts` by the new labels only).  Returns the final state and the
event trace in execution order. -/
def browseDirTail (s : GuiState) (dialogNo : Bool) : GuiState × List BrowseEvent :=
  let closeEvs : List BrowseEvent :=
    if s.bodyparts.length ≠ s.bodyparts.dedup.length then [BrowseEvent.closeFired] else []
  let newBps := newBodypartsOf s.dataFrame s.bodyparts
  if newBps = [] then
    let s2 := plot s
    (s2, closeEvs ++ [BrowseEvent.plotted] ++ s.bodyparts.map BrowseEvent.handleCreated)
  else
    let s1 := if dialogNo then { s with bodyparts := newBps } else s
    let s2 := { s1 with dataFrame := addColumnsForNew s.dataFrame newBps }
    let s3 := plot s2
    (s3, closeEvs ++ newBps.map BrowseEvent.columnAdded ++ [BrowseEvent.plotted]
         ++ s2.bodyparts.map BrowseEvent.handleCreated)

/-! ### Concrete names used by the example states -/

def bpA : String := "ankle"

def bpB : String := "knee"

def bpC : String := "hip"

def fr0rel : String := "labeled-data/v1/img000.png"

def fr1rel : String := "labeled-data/v1/img001.png"

def fr0abs : String := "/proj/labeled-data/v1/img000.png"

def fr1abs : String := "/proj/labeled-data/v1/img001.png"

def dirProj : String := "/proj"

def dirHome : String := "/home/user"

/-! ### Helper lemmas about the store operations -/

theorem dfSetXY_rows_get?_ne (df : DF) (f bp : String) (x y : Val) (i : Nat)
    (row : String × Row) (h : df.rows.get? i = some row) (hne : row.1 ≠ f) :
    (dfSetXY df f bp x y).rows.get? i = some row := by
  obtain ⟨rk, rv⟩ := row
  rw [List.get?_eq_getElem?] at h ⊢
  simp only [dfSetXY, List.getElem?_map, h, Option.map_some']
  have hne2 : rk ≠ f := hne
  simp [hne2]

theorem foldl_dfSetXY_rows_get?_ne (l : List Coords) (f : String)
    (step : DF → Coords → DF)
    (hstep : ∀ df c, step df c = dfSetXY df f c.bp c.x c.y)
    (df : DF) (i : Nat) (row : String × Row)
    (h : df.rows.get? i = some row) (hne : row.1 ≠ f) :
    (l.foldl step df).rows.get? i = some row := by
  induction l generalizing df with
  | nil => simpa using h
  | cons c t ih =>
      rw [List.foldl_cons, hstep]
      exact ih _ (dfSetXY_rows_get?_ne df f c.bp c.x c.y i row h hne)

theorem lookupRow_append_left (bp : String) (r r2 : Row) (v : Val × Val)
    (h : lookupRow bp r = some v) : lookupRow bp (r ++ r2) = some v := by
  induction r with
  | nil => simp [lookupRow] at h
  | cons e t ih =>
      by_cases he : e.1 = bp
      · rw [lookupRow, if_pos he] at h
        rw [List.cons_append, lookupRow, if_pos he]
        exact h
      · rw [lookupRow, if_neg he] at h
        rw [List.cons_append, lookupRow, if_neg he]
        exact ih h

theorem lookupRow_append_of_not_mem (bp : String) (r r2 : Row)
    (h : bp ∉ r.map Prod.fst) : lookupRow bp (r ++ r2) = lookupRow bp r2 := by
  induction r with
  | nil => rfl
  | cons e t ih =>
      simp only [List.map_cons, List.mem_cons] at h
      push_neg at h
      rw [List.cons_append, lookupRow, if_neg (fun hh => h.1 hh.symm)]
      exact ih h.2

theorem lookupRow_map_const (bp : String) (l : List String) (v : Val × Val)
    (h : bp ∈ l) : lookupRow bp (l.map (fun b => (b, v))) = some v := by
  induction l with
  | nil => simp at h
  | cons a t ih =>
      by_cases ha : a = bp
      · simp [lookupRow, ha]
      · rcases List.mem_cons.mp h with h1 | h1
        · exact absurd h1.symm ha
        · simpa [lookupRow, ha] using ih h1

theorem lookupRow_of_mem_nodup (bp : String) (r : Row) (v : Val × Val)
    (hnd : (r.map Prod.fst).Nodup) (h : (bp, v) ∈ r) : lookupRow bp r = some v := by
  induction r with
  | nil => simp at h
  | cons e t ih =>
      simp only [List.map_cons, List.nodup_cons] at hnd
      rcases List.mem_cons.mp h with h1 | h1
      · simp [lookupRow, ← h1]
      · have hbp : bp ∈ t.map Prod.fst := List.mem_map.mpr ⟨(bp, v), h1, rfl⟩
        have he : e.1 ≠ bp := fun hh => hnd.1 (hh ▸ hbp)
        simpa [lookupRow, he] using ih hnd.2 h1

theorem map_fst_map_pair (l : List String) (f : String → Val × Val) :
    (l.map (fun bp => (bp, f bp))).map Prod.fst = l := by
  induction l with
  | nil => rfl
  | cons a t ih => simp [ih]

theorem rowSetXY_keys (r : Row) (bp : String) (x y : Val) :
    (rowSetXY r bp x y).map Prod.fst = r.map Prod.fst := by
  induction r with
  | nil => rfl
  | cons e t ih =>
      by_cases he : e.1 = bp <;> simp [rowSetXY, he] <;> simpa [rowSetXY] using ih

theorem dfSetXY_cols (df : DF) (f bp : String) (x y : Val) :
    (dfSetXY df f bp x y).cols = df.cols := rfl

theorem dfSetXY_wellFormed (df : DF) (f bp : String) (x y : Val)
    (h : wellFormed df) : wellFormed (dfSetXY df f bp x y) := by
  intro r2 hr2
  simp only [dfSetXY] at hr2
  obtain ⟨r, hr, heq⟩ := List.mem_map.mp hr2
  by_cases hf : r.1 = f
  · rw [if_pos hf] at heq
    rw [← heq]
    simpa [rowSetXY_keys] using h r hr
  · rw [if_neg hf] at heq
    rw [← heq]
    exact h r hr

theorem foldl_dfSetXY_wellFormed_cols (l : List Coords) (f : String) (df : DF)
    (h : wellFormed df) :
    wellFormed (l.foldl (fun d c => dfSetXY d f c.bp c.x c.y) df) ∧
    (l.foldl (fun d c => dfSetXY d f c.bp c.x c.y) df).cols = df.cols := by
  induction l generalizing df with
  | nil => exact ⟨h, rfl⟩
  | cons c t ih =>
      rw [List.foldl_cons]
      exact ⟨(ih _ (dfSetXY_wellFormed df f c.bp c.x c.y h)).1,
             (ih _ (dfSetXY_wellFormed df f c.bp c.x c.y h)).2.trans rfl⟩

theorem saveEachImage_wellFormed_cols (s : GuiState) (h : wellFormed s.dataFrame) :
    wellFormed (saveEachImage s).dataFrame ∧
    (saveEachImage s).dataFrame.cols = s.dataFrame.cols := by
  simpa [saveEachImage] using
    foldl_dfSetXY_wellFormed_cols s.updatedCoords (currentRelName s) s.dataFrame h

theorem dropAllNaN_wellFormed (df : DF) (h : wellFormed df) :
    wellFormed (dropAllNaN df) := by
  intro r hr
  exact h r (List.mem_of_mem_filter hr)

theorem dropAllNaN_no_allUnset (df : DF) :
    ∀ r ∈ (dropAllNaN df).rows, allUnsetRow r.2 = false := by
  intro r hr
  have h2 := List.of_mem_filter hr
  simp only [Bool.not_eq_true'] at h2
  exact h2

theorem sortRows_mem (df : DF) (r : String × Row) :
    r ∈ (sortRows df).rows ↔ r ∈ df.rows :=
  (List.perm_insertionSort rowLe df.rows).mem_iff

theorem sortRows_sorted (df : DF) : List.Sorted rowLe (sortRows df).rows :=
  List.sorted_insertionSort rowLe df.rows

theorem exists_set_cell_of_not_allUnset (r : Row) (h : allUnsetRow r = false) :
    ∃ e ∈ r, (e.2.1.isNone && e.2.2.isNone) = false := by
  by_contra hc
  push_neg at hc
  have htrue : allUnsetRow r = true := by
    simp only [allUnsetRow, List.all_eq_true]
    intro e he
    have := hc e he
    simpa using this
  simp [htrue] at h

theorem allUnset_false_of_mem (r : Row) (e : String × (Val × Val)) (he : e ∈ r)
    (hv : (e.2.1.isNone && e.2.2.isNone) = false) : allUnsetRow r = false := by
  cases hb : allUnsetRow r
  · rfl
  · have := (List.all_eq_true.mp hb) e he
    simp [hv] at this

/-! ### Claim theorems -/

/-- C2: when the selected bodypart is already Set (its index is in
`buttonCounter`), a right-click place attempt emits the user-facing conflict
dialog and leaves the Annotation Store, the point handles, the pending
coordinates and the button counter entirely unchanged. -/
theorem onClick_conflict_no_state_change (s : GuiState) (x y : Val)
    (h : s.rdbSelection ∈ s.buttonCounter) :
    (onClick s 3 x y).dataFrame = s.dataFrame ∧
    (onClick s 3 x y).drs = s.drs ∧
    (onClick s 3 x y).updatedCoords = s.updatedCoords ∧
    (onClick s 3 x y).buttonCounter = s.buttonCounter ∧
    (onClick s 3 x y).iter = s.iter ∧
    (onClick s 3 x y).messages =
      s.messages ++ [conflictMsg (s.bodyparts.getD s.rdbSelection emptyStr)] := by
  simp [onClick, h]

/-- Example session used for the conflict witness: bodypart 0 already
annotated on the only frame. -/
def exConflict : GuiState where
  dataFrame := ⟨[bpA], [(fr0rel, [(bpA, (some 1, some 2))])]⟩
  iter := 0
  index := [fr0abs]
  relativeimagenames := [fr0rel]
  bodyparts := [bpA]
  updatedCoords := []
  buttonCounter := [0]
  drs := []
  rdbSelection := 0
  nextEnabled := true
  prevEnabled := false
  file := 0
  currentDirectory := dirProj
  files := [fr0abs]
  messages := []

theorem onClick_conflict_no_state_change_witness :
    exConflict.rdbSelection ∈ exConflict.buttonCounter ∧
    ((onClick exConflict 3 (some 3) (some 4)).dataFrame = exConflict.dataFrame ∧
     (onClick exConflict 3 (some 3) (some 4)).drs = exConflict.drs ∧
     (onClick exConflict 3 (some 3) (some 4)).updatedCoords = exConflict.updatedCoords ∧
     (onClick exConflict 3 (some 3) (some 4)).buttonCounter = exConflict.buttonCounter ∧
     (onClick exConflict 3 (some 3) (some 4)).iter = exConflict.iter ∧
     (onClick exConflict 3 (some 3) (some 4)).messages =
       exConflict.messages ++ [conflictMsg (exConflict.bodyparts.getD exConflict.rdbSelection emptyStr)]) :=
  ⟨by decide, onClick_conflict_no_state_change exConflict (some 3) (some 4) (by decide)⟩

/-- C10: on the last frame, next-frame navigation returns before the
auto-commit step: the frame index and the Annotation Store are unchanged. -/
theorem nextImage_last_frame_no_effect (s : GuiState)
    (h : s.index.length - s.iter = 1) :
    (nextImage s).dataFrame = s.dataFrame ∧ (nextImage s).iter = s.iter := by
  simp [nextImage, h]

/-- Single-frame session with a pending edit, for the last-frame witness. -/
def exLastFrame : GuiState where
  dataFrame := ⟨[bpA], [(fr0rel, [(bpA, (none, none))])]⟩
  iter := 0
  index := [fr0abs]
  relativeimagenames := [fr0rel]
  bodyparts := [bpA]
  updatedCoords := [⟨some 7, some 8, bpA, 0⟩]
  buttonCounter := [0]
  drs := [⟨some 7, some 8, bpA, 0⟩]
  rdbSelection := 0
  nextEnabled := true
  prevEnabled := false
  file := 0
  currentDirectory := dirProj
  files := [fr0abs]
  messages := []

theorem nextImage_last_frame_no_effect_witness :
    exLastFrame.index.length - exLastFrame.iter = 1 ∧
    ((nextImage exLastFrame).dataFrame = exLastFrame.dataFrame ∧
     (nextImage exLastFrame).iter = exLastFrame.iter) :=
  ⟨by decide, nextImage_last_frame_no_effect exLastFrame (by decide)⟩

/-- C5: committing the current frame's edits writes only the store row of
the current frame; every row with a different frame name is unchanged. -/
theorem saveEachImage_other_rows_unchanged (s : GuiState) (i : Nat)
    (row : String × Row) (h : s.dataFrame.rows.get? i = some row)
    (hne : row.1 ≠ currentRelName s) :
    (saveEachImage s).dataFrame.rows.get? i = some row := by
  simpa [saveEachImage] using
    foldl_dfSetXY_rows_get?_ne s.updatedCoords (currentRelName s)
      (fun df c => dfSetXY df (currentRelName s) c.bp c.x c.y) (fun _ _ => rfl)
      s.dataFrame i row h hne

/-- Two-frame session with a pending edit on frame 0, for the C5 witness:
frame 1's row must survive the commit untouched. -/
def exTwoFrames : GuiState where
  dataFrame := ⟨[bpA], [(fr0rel, [(bpA, (none, none))]), (fr1rel, [(bpA, (some 3, some 4))])]⟩
  iter := 0
  index := [fr0abs, fr1abs]
  relativeimagenames := [fr0rel, fr1rel]
  bodyparts := [bpA]
  updatedCoords := [⟨some 7, some 8, bpA, 0⟩]
  buttonCounter := [0]
  drs := [⟨some 7, some 8, bpA, 0⟩]
  rdbSelection := 0
  nextEnabled := true
  prevEnabled := false
  file := 0
  currentDirectory := dirProj
  files := [fr0abs, fr1abs]
  messages := []

theorem saveEachImage_other_rows_unchanged_witness :
    exTwoFrames.dataFrame.rows.get? 1 = some (fr1rel, [(bpA, (some 3, some 4))]) ∧
    (fr1rel, [(bpA, (some 3, some 4))]).1 ≠ currentRelName exTwoFrames ∧
    (saveEachImage exTwoFrames).dataFrame.rows.get? 1 = some (fr1rel, [(bpA, (some 3, some 4))]) :=
  ⟨by decide, by decide,
   saveEachImage_other_rows_unchanged exTwoFrames 1 (fr1rel, [(bpA, (some 3, some 4))])
     (by decide) (by decide)⟩

/-- Session with three bodyparts where the middle one (index 1) is already
Set and the last (index 2) is Unset, with bodypart 0 selected. -/
def exSkip : GuiState where
  dataFrame := ⟨[bpA, bpB, bpC],
    [(fr0rel, [(bpA, (none, none)), (bpB, (some 5, some 6)), (bpC, (none, none))])]⟩
  iter := 0
  index := [fr0abs]
  relativeimagenames := [fr0rel]
  bodyparts := [bpA, bpB, bpC]
  updatedCoords := []
  buttonCounter := [1]
  drs := []
  rdbSelection := 0
  nextEnabled := true
  prevEnabled := false
  file := 0
  currentDirectory := dirProj
  files := [fr0abs]
  messages := []

/-- C3 counterexample: after successfully placing bodypart 0, the selection
advances to index 1, which is already Set (in `buttonCounter`), even though
bodypart 2 is still Unset — the code advances to index+1 without skipping
Set bodyparts, so the new selection CAN be an already-Set bodypart while an
Unset one remains. -/
theorem onClick_advance_counterexample :
    exSkip.rdbSelection ∉ exSkip.buttonCounter ∧
    (onClick exSkip 3 (some 9) (some 9)).rdbSelection = 1 ∧
    1 ∈ (onClick exSkip 3 (some 9) (some 9)).buttonCounter ∧
    2 ∉ (onClick exSkip 3 (some 9) (some 9)).buttonCounter ∧
    2 < (onClick exSkip 3 (some 9) (some 9)).bodyparts.length := by
  decide

/-- C3 amended: after a successful place, the selection advances to the
immediately following bodypart index in configured order when the placed
bodypart was not the last one (and stays put otherwise); the code does not
skip already-Set bodyparts. -/
theorem onClick_place_advances_by_one (s : GuiState) (x y : Val)
    (h : s.rdbSelection ∉ s.buttonCounter) :
    (onClick s 3 x y).rdbSelection =
      (if s.rdbSelection < s.bodyparts.length - 1 then s.rdbSelection + 1
       else s.rdbSelection) ∧
    (onClick s 3 x y).buttonCounter = s.buttonCounter ++ [s.rdbSelection] := by
  by_cases hlt : s.rdbSelection < s.bodyparts.length - 1 <;> simp [onClick, h, hlt]

theorem onClick_place_advances_by_one_witness :
    exSkip.rdbSelection ∉ exSkip.buttonCounter ∧
    ((onClick exSkip 3 (some 9) (some 9)).rdbSelection =
       (if exSkip.rdbSelection < exSkip.bodyparts.length - 1 then exSkip.rdbSelection + 1
        else exSkip.rdbSelection) ∧
     (onClick exSkip 3 (some 9) (some 9)).buttonCounter =
       exSkip.buttonCounter ++ [exSkip.rdbSelection]) :=
  ⟨by decide, onClick_place_advances_by_one exSkip (some 9) (some 9) (by decide)⟩

/-- Two-frame session whose two rows hold different values for bodypart
`bpA`, displaying frame 0. -/
def exGet : GuiState where
  dataFrame := ⟨[bpA], [(fr0rel, [(bpA, (some 1, some 2))]), (fr1rel, [(bpA, (some 3, some 4))])]⟩
  iter := 0
  index := [fr0abs, fr1abs]
  relativeimagenames := [fr0rel, fr1rel]
  bodyparts := [bpA]
  updatedCoords := []
  buttonCounter := [0]
  drs := []
  rdbSelection := 0
  nextEnabled := true
  prevEnabled := false
  file := 0
  currentDirectory := dirProj
  files := [fr0abs, fr1abs]
  messages := []

/-- The same session with a pending point-editor value (9, 10) for the
displayed frame. -/
def exGetPending : GuiState :=
  { exGet with updatedCoords := [⟨some 9, some 10, bpA, 0⟩] }

/-- C1: `getLabels` ignores its `img_index` argument and always reads the
row of the currently displayed frame (`.values[self.iter]`).  Asked about
frame index 1 while frame 0 is displayed, it returns frame 0's stored
(1, 2) although frame 1 stores (3, 4) — so the spec's read-back property
fails for any frame other than the displayed one, contradicting the
function's own docstring ("labels of the corresponding image index").
(The last conjunct shows the half of the claim that does hold: committing
(9, 10) for the displayed frame and reading that frame back returns
exactly (9, 10).) -/
theorem getLabels_ignores_asked_frame :
    getLabels exGet 1 = getLabels exGet 0 ∧
    getLabels exGet 1 = [⟨some 1, some 2, bpA, 0⟩] ∧
    dfGetPos exGet.dataFrame 1 bpA = (some 3, some 4) ∧
    dfGetPos exGet.dataFrame 1 bpA ≠ dfGetPos exGet.dataFrame 0 bpA ∧
    getLabels (saveEachImage exGetPending) 0 = [⟨some 9, some 10, bpA, 0⟩] := by
  refine ⟨rfl, rfl, rfl, ?_, rfl⟩
  decide

/-- C7 counterexample: on linux the backup renames are not wrapped in
try/except, so a file-system error during the rename propagates and the
whole save aborts — nothing is logged and nothing is written — refuting
"best-effort on every platform". -/
theorem saveDataSet_linux_rename_failure_aborts :
    saveDataSet OsName.linux true true false false true exConflict =
      Except.error osErrorMsg := by
  rfl

/-- C7 amended: the backup-rename step is best-effort only on darwin
(macOS): there a rename failure is caught, the message is printed and the
save still completes, writing the transformed table to both files; on linux
and win32 an uncaught rename error aborts the save. -/
theorem saveDataSet_darwin_rename_failure_proceeds
    (csvE hdfE csvBakE hdfBakE : Bool) (s : GuiState) :
    saveDataSet OsName.darwin csvE hdfE csvBakE hdfBakE true s =
      Except.ok ⟨if csvE || hdfE then [darwinLogMsg] else [],
                 { saveEachImage s with dataFrame := saveDataSetTable s },
                 saveDataSetTable s, saveDataSetTable s⟩ := by
  cases csvE <;> cases hdfE <;> rfl

/-- C4: a completed save writes the same logical table to the .csv and the
.h5 file; in that table no row is all-unset across all bodyparts, the rows
are in ascending frame-identifier order, and the bodypart columns of the
table and of every row are exactly the configured bodypart list, in
configured order (not insertion order).  Hypotheses: the in-memory store is
rectangular (`wellFormed`), its column labels are duplicate-free, and the
stored column-label set equals the configured bodypart set — the session
invariant `browseDir` establishes before any save (its reconciliation adds
a column pair for every configured bodypart, and removing a bodypart from
the configuration is outside this claim); without `bodyparts ⊆ cols` the
level-based reindex would silently drop the configured labels that have no
stored columns. -/
theorem saveDataSet_writes_clean_sorted_table
    (p : OsName) (csvE hdfE csvBakE hdfBakE renameFails : Bool)
    (s : GuiState) (r : SaveResult)
    (hwf : wellFormed s.dataFrame)
    (hnd : s.dataFrame.cols.Nodup)
    (hsub : ∀ c ∈ s.dataFrame.cols, c ∈ s.bodyparts)
    (hsub2 : ∀ b ∈ s.bodyparts, b ∈ s.dataFrame.cols)
    (hok : saveDataSet p csvE hdfE csvBakE hdfBakE renameFails s = Except.ok r) :
    r.csvFile = r.hdfFile ∧
    (∀ row ∈ r.csvFile.rows, allUnsetRow row.2 = false) ∧
    List.Sorted (· ≤ ·) (r.csvFile.rows.map Prod.fst) ∧
    r.csvFile.cols = s.bodyparts ∧
    (∀ row ∈ r.csvFile.rows, row.2.map Prod.fst = s.bodyparts) := by
  rcases hb : backupPhase p csvE hdfE csvBakE hdfBakE renameFails with e | log
  · rw [saveDataSet.eq_def, hb] at hok
    simp at hok
  · have hval : saveDataSet p csvE hdfE csvBakE hdfBakE renameFails s =
        Except.ok ⟨log, { saveEachImage s with dataFrame := saveDataSetTable s },
                   saveDataSetTable s, saveDataSetTable s⟩ := by
      rw [saveDataSet.eq_def, hb]
    rw [hval] at hok
    have hr : r = ⟨log, { saveEachImage s with dataFrame := saveDataSetTable s },
                   saveDataSetTable s, saveDataSetTable s⟩ := (Except.ok.inj hok).symm
    subst hr
    have hwf1 := (saveEachImage_wellFormed_cols s hwf).1
    have hcols1 := (saveEachImage_wellFormed_cols s hwf).2
    have hkeep : s.bodyparts.filter
        (fun bp => decide (bp ∈ (sortRows (dropAllNaN (saveEachImage s).dataFrame)).cols)) =
        s.bodyparts := by
      rw [List.filter_eq_self]
      intro b hb
      simp only [decide_eq_true_eq]
      show b ∈ (saveEachImage s).dataFrame.cols
      rw [hcols1]
      exact hsub2 b hb
    refine ⟨rfl, ?_, ?_, ?_, ?_⟩
    · -- no all-unset row survives into the written table
      intro row hrow
      obtain ⟨r0, hr0, heq⟩ := List.mem_map.mp hrow
      subst heq
      have hr0' : r0 ∈ (dropAllNaN (saveEachImage s).dataFrame).rows :=
        (sortRows_mem _ _).mp hr0
      have hnall : allUnsetRow r0.2 = false := dropAllNaN_no_allUnset _ r0 hr0'
      have hkeys : r0.2.map Prod.fst = s.dataFrame.cols :=
        (dropAllNaN_wellFormed _ hwf1 r0 hr0').trans hcols1
      obtain ⟨e, he, hv⟩ := exists_set_cell_of_not_allUnset r0.2 hnall
      obtain ⟨ebp, ev⟩ := e
      have hbp_cols : ebp ∈ s.dataFrame.cols := by
        rw [← hkeys]
        exact List.mem_map.mpr ⟨(ebp, ev), he, rfl⟩
      have hbp_body : ebp ∈ s.bodyparts := hsub _ hbp_cols
      have hnd0 : (r0.2.map Prod.fst).Nodup := by rw [hkeys]; exact hnd
      have hlk : lookupRow ebp r0.2 = some ev :=
        lookupRow_of_mem_nodup ebp r0.2 ev hnd0 he
      have hkept : ebp ∈ s.bodyparts.filter
          (fun bp => decide (bp ∈ (sortRows (dropAllNaN (saveEachImage s).dataFrame)).cols)) := by
        refine List.mem_filter.mpr ⟨hbp_body, ?_⟩
        simp only [decide_eq_true_eq]
        show ebp ∈ (saveEachImage s).dataFrame.cols
        rw [hcols1]
        exact hbp_cols
      have hmem2 : (ebp, ev) ∈
          (s.bodyparts.filter
            (fun bp => decide (bp ∈ (sortRows (dropAllNaN (saveEachImage s).dataFrame)).cols))).map
            (fun bp => (bp, (lookupRow bp r0.2).getD (none, none))) := by
        refine List.mem_map.mpr ⟨ebp, hkept, ?_⟩
        simp [hlk]
      exact allUnset_false_of_mem _ (ebp, ev) hmem2 hv
    · -- the written rows are sorted ascending by frame name
      have hkeyeq : (saveDataSetTable s).rows.map Prod.fst =
          (sortRows (dropAllNaN (saveEachImage s).dataFrame)).rows.map Prod.fst := by
        unfold saveDataSetTable reindexCols
        simp [List.map_map]
      rw [hkeyeq]
      exact List.pairwise_map.mpr (sortRows_sorted (dropAllNaN (saveEachImage s).dataFrame))
    · -- the written table's columns are exactly the configured bodyparts
      exact hkeep
    · -- every written row's columns are the configured bodyparts, in order
      intro row hrow
      obtain ⟨r0, _, heq⟩ := List.mem_map.mp hrow
      subst heq
      exact (map_fst_map_pair _ _).trans hkeep

/-- Store whose columns are in insertion order `[knee, ankle]` while the
configuration orders them `[ankle, knee]`, whose rows are out of order on
disk names, with one all-unset row, and with a pending edit on the
displayed frame. -/
def exSave : GuiState where
  dataFrame := ⟨[bpB, bpA],
    [(fr1rel, [(bpB, (some 1, some 2)), (bpA, (none, none))]),
     (fr0rel, [(bpB, (none, none)), (bpA, (none, none))])]⟩
  iter := 0
  index := [fr0abs, fr1abs]
  relativeimagenames := [fr0rel, fr1rel]
  bodyparts := [bpA, bpB]
  updatedCoords := []
  buttonCounter := []
  drs := []
  rdbSelection := 0
  nextEnabled := true
  prevEnabled := false
  file := 0
  currentDirectory := dirProj
  files := [fr0abs, fr1abs]
  messages := []

theorem saveDataSet_writes_clean_sorted_table_witness :
    (∀ row ∈ (saveDataSetTable exSave).rows, allUnsetRow row.2 = false) ∧
    List.Sorted (· ≤ ·) ((saveDataSetTable exSave).rows.map Prod.fst) ∧
    (saveDataSetTable exSave).cols = exSave.bodyparts ∧
    (∀ row ∈ (saveDataSetTable exSave).rows, row.2.map Prod.fst = exSave.bodyparts) := by
  have h := saveDataSet_writes_clean_sorted_table OsName.linux false false false false false
    exSave
    ⟨[], { saveEachImage exSave with dataFrame := saveDataSetTable exSave },
     saveDataSetTable exSave, saveDataSetTable exSave⟩
    (by decide) (by decide) (by decide) (by decide) rfl
  exact ⟨h.2.1, h.2.2.1, h.2.2.2.1, h.2.2.2.2⟩

/-- C6: reconciling the loaded store against a configuration that contains
new bodyparts (1) gives every new bodypart the all-unset value `(NaN, NaN)`
on every row, (2) leaves every previously stored value readable unchanged
on every row, and (3) afterwards every row's column set is exactly the
configured bodypart set.  Hypotheses: the loaded store is rectangular and
its columns are all configured bodyparts (i.e. none was removed from the
configuration). -/
theorem reconcile_adds_unset_columns (df : DF) (bodyparts : List String)
    (hwf : wellFormed df) (hsub : ∀ c ∈ df.cols, c ∈ bodyparts) :
    (∀ r2 ∈ (reconcileNewBodyparts df bodyparts).rows,
        ∀ bp ∈ newBodypartsOf df bodyparts, lookupRow bp r2.2 = some (none, none)) ∧
    (∀ i r, df.rows.get? i = some r →
        ∃ r2, (reconcileNewBodyparts df bodyparts).rows.get? i = some r2 ∧ r2.1 = r.1 ∧
          ∀ bp v, lookupRow bp r.2 = some v → lookupRow bp r2.2 = some v) ∧
    (∀ r2 ∈ (reconcileNewBodyparts df bodyparts).rows, ∀ bp,
        bp ∈ r2.2.map Prod.fst ↔ bp ∈ bodyparts) := by
  by_cases hn : newBodypartsOf df bodyparts = []
  · have hre : reconcileNewBodyparts df bodyparts = df := by
      simp [reconcileNewBodyparts, hn]
    rw [hre, hn]
    refine ⟨?_, ?_, ?_⟩
    · intro r _ bp hbp
      simp at hbp
    · intro i r h
      exact ⟨r, h, rfl, fun bp v hv => hv⟩
    · intro r2 hr2 bp
      rw [hwf r2 hr2]
      constructor
      · exact fun h => hsub bp h
      · intro hbp
        by_contra hcols
        have hmem : bp ∈ newBodypartsOf df bodyparts := by
          unfold newBodypartsOf
          refine List.mem_filter.mpr ⟨hbp, ?_⟩
          simp only [decide_eq_true_eq]
          intro hd
          exact hcols (List.mem_dedup.mp hd)
        rw [hn] at hmem
        simp at hmem
  · have hre : reconcileNewBodyparts df bodyparts =
        addColumnsForNew df (newBodypartsOf df bodyparts) := by
      simp [reconcileNewBodyparts, hn]
    refine ⟨?_, ?_, ?_⟩
    · intro r2 hr2 bp hbp
      rw [hre] at hr2
      obtain ⟨r, hr, heq⟩ := List.mem_map.mp hr2
      subst heq
      have hnotold : bp ∉ r.2.map Prod.fst := by
        rw [hwf r hr]
        intro hc
        have h1 := (List.mem_filter.mp hbp).2
        simp only [decide_eq_true_eq] at h1
        exact h1 (List.mem_dedup.mpr hc)
      show lookupRow bp (r.2 ++ (newBodypartsOf df bodyparts).map
        (fun b => (b, ((none : Val), (none : Val))))) = some (none, none)
      rw [lookupRow_append_of_not_mem bp r.2 _ hnotold]
      exact lookupRow_map_const bp (newBodypartsOf df bodyparts) (none, none) hbp
    · intro i r h
      rw [hre]
      refine ⟨(r.1, r.2 ++ (newBodypartsOf df bodyparts).map
        (fun b => (b, ((none : Val), (none : Val))))), ?_, rfl, ?_⟩
      · have h2 : df.rows[i]? = some r := by
          rw [← List.get?_eq_getElem?]
          exact h
        simp [addColumnsForNew, List.get?_eq_getElem?, List.getElem?_map, h2]
      · intro bp v hv
        exact lookupRow_append_left bp r.2 _ v hv
    · intro r2 hr2 bp
      rw [hre] at hr2
      obtain ⟨r, hr, heq⟩ := List.mem_map.mp hr2
      subst heq
      show bp ∈ (r.2 ++ (newBodypartsOf df bodyparts).map
        (fun b => (b, ((none : Val), (none : Val))))).map Prod.fst ↔ bp ∈ bodyparts
      rw [List.map_append, map_fst_map_pair (newBodypartsOf df bodyparts)
            (fun _ => ((none : Val), (none : Val))), hwf r hr]
      constructor
      · intro h
        rcases List.mem_append.mp h with h1 | h1
        · exact hsub bp h1
        · exact (List.mem_filter.mp h1).1
      · intro hbp
        by_cases hc : bp ∈ df.cols
        · exact List.mem_append.mpr (Or.inl hc)
        · refine List.mem_append.mpr (Or.inr ?_)
          refine List.mem_filter.mpr ⟨hbp, ?_⟩
          simp only [decide_eq_true_eq]
          intro hd
          exact hc (List.mem_dedup.mp hd)

/-- Loaded store with the single bodypart column `knee` on two frames, to
be reconciled against the configuration `[ankle, knee]` (adds `ankle`). -/
def exRecDF : DF :=
  ⟨[bpB], [(fr0rel, [(bpB, (some 1, some 2))]), (fr1rel, [(bpB, (none, none))])]⟩

def exRecBps : List String := [bpA, bpB]

theorem reconcile_adds_unset_columns_witness :
    wellFormed exRecDF ∧
    (∀ c ∈ exRecDF.cols, c ∈ exRecBps) ∧
    ((∀ r2 ∈ (reconcileNewBodyparts exRecDF exRecBps).rows,
        ∀ bp ∈ newBodypartsOf exRecDF exRecBps, lookupRow bp r2.2 = some (none, none)) ∧
     (∀ i r, exRecDF.rows.get? i = some r →
        ∃ r2, (reconcileNewBodyparts exRecDF exRecBps).rows.get? i = some r2 ∧ r2.1 = r.1 ∧
          ∀ bp v, lookupRow bp r.2 = some v → lookupRow bp r2.2 = some v) ∧
     (∀ r2 ∈ (reconcileNewBodyparts exRecDF exRecBps).rows, ∀ bp,
        bp ∈ r2.2.map Prod.fst ↔ bp ∈ exRecBps)) :=
  ⟨by decide, by decide, reconcile_adds_unset_columns exRecDF exRecBps (by decide) (by decide)⟩

/-- Session whose configuration holds the duplicate bodypart list
`[ankle, ankle]`, while the loaded table has the single column `knee`. -/
def exDup : GuiState where
  dataFrame := ⟨[bpB], [(fr0rel, [(bpB, (some 1, some 2))])]⟩
  iter := 0
  index := [fr0abs]
  relativeimagenames := [fr0rel]
  bodyparts := [bpA, bpA]
  updatedCoords := []
  buttonCounter := []
  drs := []
  rdbSelection := 0
  nextEnabled := true
  prevEnabled := false
  file := 0
  currentDirectory := dirProj
  files := [fr0abs]
  messages := []

/-- C8: with duplicate bodypart names the check fires (`self.Close(True)`),
but `browseDir` does not return: after the close request it still adds two
duplicate all-NaN column pairs to the Annotation Store, redraws, and creates
a point handle per bodypart — the trace shows store mutation, plotting and
handle creation AFTER the duplicate check fired, contradicting the intended
abort announced by the code's own "Quitting for now!" message. -/
theorem browseDir_duplicate_check_keeps_running :
    (browseDirTail exDup false).2 =
      [BrowseEvent.closeFired, BrowseEvent.columnAdded bpA, BrowseEvent.columnAdded bpA,
       BrowseEvent.plotted, BrowseEvent.handleCreated bpA, BrowseEvent.handleCreated bpA] ∧
    (browseDirTail exDup false).1.dataFrame.cols = [bpB, bpA, bpA] ∧
    (browseDirTail exDup false).1.drs.length = 2 := by
  decide

/-- Frames live under `/proj` but the process was started from
`/home/user`; frame 0 is displayed and annotated. -/
def exDel : GuiState where
  dataFrame := ⟨[bpA], [(fr0rel, [(bpA, (some 1, some 2))]), (fr1rel, [(bpA, (none, none))])]⟩
  iter := 0
  index := [fr0abs, fr1abs]
  relativeimagenames := [fr0rel, fr1rel]
  bodyparts := [bpA]
  updatedCoords := [⟨some 1, some 2, bpA, 0⟩]
  buttonCounter := [0]
  drs := [⟨some 1, some 2, bpA, 0⟩]
  rdbSelection := 0
  nextEnabled := true
  prevEnabled := false
  file := 0
  currentDirectory := dirHome
  files := [fr0abs, fr1abs]
  messages := []

/-- C9: `deleteImage` resets the displayed frame's row to unset and
advances to the next frame, but the path it removes is
`os.path.join(self.currentDirectory, relative_name)` with
`currentDirectory = os.getcwd()` captured at start-up — here
`/home/user/labeled-data/v1/img000.png` — which differs from the displayed
frame's file `/proj/labeled-data/v1/img000.png`, so that file stays on disk
(and the real `os.remove` raises FileNotFoundError). -/
theorem deleteImage_removes_wrong_path :
    (deleteImage exDel).files = exDel.files ∧
    fr0abs ∈ (deleteImage exDel).files ∧
    joinPath exDel.currentDirectory fr0rel ≠ fr0abs ∧
    dfGetByKey (deleteImage exDel).dataFrame fr0rel bpA = some (none, none) ∧
    (deleteImage exDel).iter = 1 := by
  decide

